import Mathlib

/-!
Shallow embedding of `check_cpu.py` (a Nagios-style CPU health probe).

The probe reads `/proc/stat` twice (`get_procstat_now`), derives per-id
percentage rates (`get_cpu_stats`), evaluates thresholds (`check_status`)
and renders a performance-data line (`performance_data`).

Modelling conventions:
* Python runtime failures (`ValueError`, `KeyError`, `IndexError`,
  `UnboundLocalError`, `TypeError`, `ZeroDivisionError`) are modelled by
  `Except PyErr`; an uncaught exception in the source is an `.error` value.
* Python floats are modelled by exact rationals (`ℚ`); `/` on ints in
  Python 3 is true division, hence rational division here.
* Python `dict` is modelled by an association list with newest-first
  shadowing (`dictInsert` conses, `dictLookup` takes the first hit),
  which agrees with dict insert/lookup semantics on every lookup.
* String operations (`split`, `startswith`, `int(...)`) are modelled by
  structural recursion over the character list of the string, mirroring
  the Python semantics; the decimal rendering of numbers inside
  messages/perfdata tokens is abstracted by an exact-rational rendering
  (no claim depends on the digits of a rendered value).
-/

namespace CheckCpu

/-- Python exception kinds that can escape the modelled functions. -/
inductive PyErr where
  | valueError
  | keyError
  | indexError
  | unboundLocal
  | typeError
  | zeroDivisionError
deriving DecidableEq, Repr

/-- Values stored in the `cpu_stats` dict: tick-derived ints for the
`cpu*` keys, raw string fields for the `ctxt`/`processes` keys
(the source stores `parts[1]`, a string, unconverted). -/
inductive StatVal where
  | intV (n : Int)
  | strV (s : String)
deriving DecidableEq, Repr

/-- Python dict, as an association list with newest-first shadowing. -/
def Dict (α : Type) : Type := List (String × α)

instance (α : Type) [DecidableEq α] : DecidableEq (Dict α) :=
  inferInstanceAs (DecidableEq (List (String × α)))

instance (α : Type) [Repr α] : Repr (Dict α) :=
  inferInstanceAs (Repr (List (String × α)))

instance {ε α : Type} [DecidableEq ε] [DecidableEq α] :
    DecidableEq (Except ε α) := fun x y =>
  match x, y with
  | .error e, .error e' =>
    if h : e = e' then .isTrue (by rw [h]) else .isFalse (by simp [h])
  | .ok a, .ok a' =>
    if h : a = a' then .isTrue (by rw [h]) else .isFalse (by simp [h])
  | .error _, .ok _ => .isFalse (by simp)
  | .ok _, .error _ => .isFalse (by simp)

def dictInsert {α : Type} (d : Dict α) (k : String) (v : α) : Dict α :=
  (k, v) :: d

def dictLookup {α : Type} (d : Dict α) (k : String) : Option α :=
  match d with
  | [] => none
  | (k', v) :: rest => if k' = k then some v else dictLookup rest k

/-- `d[k]` on a Python dict: `KeyError` when the key is absent. -/
def dictRequire {α : Type} (d : Dict α) (k : String) : Except PyErr α :=
  match dictLookup d k with
  | none => .error .keyError
  | some v => .ok v

/-- Explicit `Except` bind (kept first-order for proof transparency). -/
def ebind {α β : Type} (x : Except PyErr α) (f : α → Except PyErr β) :
    Except PyErr β :=
  match x with
  | .error e => .error e
  | .ok a => f a

@[simp] theorem ebind_ok {α β : Type} (a : α) (f : α → Except PyErr β) :
    ebind (.ok a) f = f a := rfl

@[simp] theorem ebind_error {α β : Type} (e : PyErr) (f : α → Except PyErr β) :
    ebind (.error e) f = .error e := rfl

/-- Split a character list at every character satisfying `p`, keeping
empty pieces (the behaviour of Python `str.split(sep)` piecewise). -/
def splitPred (p : Char → Bool) : List Char → List Char → List (List Char)
  | [], acc => [acc.reverse]
  | x :: xs, acc =>
    if p x then acc.reverse :: splitPred p xs []
    else splitPred p xs (x :: acc)

/-- Python `text.split("\n")`. -/
def pyLines (s : String) : List String :=
  (splitPred (fun c => c = '\n') s.data []).map fun l => (⟨l⟩ : String)

/-- Python `str.split()` with no argument: split on whitespace,
dropping empty fields. -/
def pySplit (s : String) : List String :=
  ((splitPred (fun c => c.isWhitespace) s.data []).map
    fun l => (⟨l⟩ : String)).filter fun t => t ≠ ""

/-- Python `s.startswith(pre)`. -/
def pyStartsWith (s pre : String) : Bool :=
  pre.data.isPrefixOf s.data

/-- Decimal digit accumulator for `pyToInt`. -/
def decDigitsAux (acc : Nat) : List Char → Option Nat
  | [] => some acc
  | c :: cs =>
    if c.isDigit then decDigitsAux (acc * 10 + (c.toNat - 48)) cs
    else none

/-- Python `int(s)` on a `/proc/stat` field: an optionally-signed
nonempty run of decimal digits; any other text raises `ValueError`
(returned as `none` here). -/
def pyToInt (s : String) : Option Int :=
  match s.data with
  | [] => none
  | '-' :: rest =>
    match rest with
    | [] => none
    | _ => (decDigitsAux 0 rest).map fun n => -(n : Int)
  | '+' :: rest =>
    match rest with
    | [] => none
    | _ => (decDigitsAux 0 rest).map fun n => (n : Int)
  | l => (decDigitsAux 0 l).map fun n => (n : Int)

/-- Python `float(v)` as applied at lines 132-133 of the source to a
stored stat value (stat fields are integer literals). -/
def pyFloat (v : StatVal) : Except PyErr ℚ :=
  match v with
  | .intV n => .ok (n : ℚ)
  | .strV s =>
    match pyToInt s with
    | none => .error .valueError
    | some n => .ok (n : ℚ)

/-- Python `x / p` on numbers: `ZeroDivisionError` when `p = 0`. -/
def pyDiv (x p : ℚ) : Except PyErr ℚ :=
  if p = 0 then .error .zeroDivisionError else .ok (x / p)

-- Nagios return codes (source lines 27-30).
def UNKNOWN : Nat := 3
def OK : Nat := 0
def WARNING : Nat := 1
def CRITICAL : Nat := 2

-- Module-level threshold defaults (source lines 65-77).
def warn : Int := 95
def crit : Int := 98
def per_cpu_warn : Int := 98
def per_cpu_crit : Int := 100
def io_warn : Int := 90
def io_crit : Int := 98
def io_warn_overall : Int := 100
def io_crit_overall : Int := 100
def steal_warn : Int := 30
def steal_crit : Int := 80
def sample_period : Int := 1

/-- The four values the source derives from one CPU tick line
(source lines 105-111). -/
structure CpuTicksInfo where
  cpu_usage : Int
  cpu_total_ticks : Int
  io_wait : Int
  steal : Int
deriving DecidableEq, Repr

/-- Lines 105-107: unpack the ten tick counters, `cpu_usage = sum - idle`,
`cpu_total_ticks = sum`. -/
def derive_ticks (user nice system idle io_wait hw_intr sw_intr steal
    guest guest_nice : Int) : CpuTicksInfo :=
  { cpu_usage := user + nice + system + idle + io_wait + hw_intr + sw_intr +
      steal + guest + guest_nice - idle
    cpu_total_ticks := user + nice + system + idle + io_wait + hw_intr +
      sw_intr + steal + guest + guest_nice
    io_wait := io_wait
    steal := steal }

/-- State threaded through the line loop of `get_procstat_now`:
the local `parts` (unbound before the first CPU line), the `cpu_stats`
dict under construction, and the global `cpu_id_list`. -/
structure ParseState where
  parts : Option (List String)
  cpu_stats : Dict StatVal
  cpu_id_list : List String
deriving DecidableEq, Repr

/-- A captured snapshot: the returned `cpu_stats` dict plus the global
`cpu_id_list` left behind by `get_procstat_now`. -/
structure PSnap where
  stats : Dict StatVal
  cpu_id_list : List String
deriving DecidableEq, Repr

/-- The `while len(cpu_ticks_array) < 10: append(0)` loop of source
lines 103-104: right-pad with zeros to (at least) ten fields. -/
def pad10 (cpu_ticks_array : List Int) : List Int :=
  cpu_ticks_array ++ List.replicate (10 - cpu_ticks_array.length) 0

/-- Lines 102-112: pad the integer tick list on the right to ten fields,
unpack it (a list longer than ten raises `ValueError` at the unpacking),
derive the four values and record them under `cpu_id`, `cpu_id + "all"`,
`cpu_id + "io_wait"`, `cpu_id + "steal"`; append `cpu_id` to the id list. -/
def record_cpu (st : ParseState) (cpu_id : String)
    (cpu_ticks_array : List Int) : Except PyErr ParseState :=
  match pad10 cpu_ticks_array with
  | [user, nice, system, idle, io_wait, hw_intr, sw_intr, steal,
      guest, guest_nice] =>
    let info := derive_ticks user nice system idle io_wait hw_intr sw_intr
      steal guest guest_nice
    .ok { st with
      cpu_stats :=
        dictInsert
          (dictInsert
            (dictInsert
              (dictInsert st.cpu_stats cpu_id (.intV info.cpu_usage))
              (cpu_id ++ "all") (.intV info.cpu_total_ticks))
            (cpu_id ++ "io_wait") (.intV info.io_wait))
          (cpu_id ++ "steal") (.intV info.steal)
      cpu_id_list := st.cpu_id_list ++ [cpu_id] }
  | _ => .error .valueError

/-- One iteration of the line loop (source lines 86-112).  The source's
`cpu ` and `cpu` branches are textually identical, so they are merged.
The `ctxt`/`processes` branches read `parts[1]` from whatever CPU line
was split last — they do not split the current line — and raise
`UnboundLocalError` when no CPU line has been seen yet. -/
def parseLine (st : ParseState) (line : String) : Except PyErr ParseState :=
  if pyStartsWith line "cpu" then
    match pySplit line with
    | [] => .error .indexError
    | cpu_id :: cpu_ticks =>
      match cpu_ticks.mapM pyToInt with
      | none => .error .valueError
      | some arr =>
        record_cpu { st with parts := some (cpu_id :: cpu_ticks) } cpu_id arr
  else if pyStartsWith line "ctxt" then
    match st.parts with
    | none => .error .unboundLocal
    | some parts =>
      match parts.get? 1 with
      | none => .error .indexError
      | some v => .ok { st with cpu_stats := dictInsert st.cpu_stats "ctxt" (.strV v) }
  else if pyStartsWith line "processes" then
    match st.parts with
    | none => .error .unboundLocal
    | some parts =>
      match parts.get? 1 with
      | none => .error .indexError
      | some v => .ok { st with cpu_stats := dictInsert st.cpu_stats "processes" (.strV v) }
  else
    .ok st

/-- The `for line in procstat_text.split("\n")` loop. -/
def parse_fold (st : ParseState) : List String → Except PyErr ParseState
  | [] => .ok st
  | l :: ls =>
    match parseLine st l with
    | .error e => .error e
    | .ok st2 => parse_fold st2 ls

/-- `get_procstat_now` (source lines 79-113), applied to the text read
from the statistics source. -/
def get_procstat_now (procstat_text : String) : Except PyErr PSnap :=
  match parse_fold { parts := none, cpu_stats := [], cpu_id_list := [] }
      (pyLines procstat_text) with
  | .error e => .error e
  | .ok st => .ok { stats := st.cpu_stats, cpu_id_list := st.cpu_id_list }

/-- Dict access that must yield an int counter: `KeyError` when the key
is absent, `TypeError` if a string value meets integer arithmetic. -/
def requireInt (d : Dict StatVal) (k : String) : Except PyErr Int :=
  match dictLookup d k with
  | none => .error .keyError
  | some (.intV n) => .ok n
  | some (.strV _) => .error .typeError

/-- The percentage formula of source lines 125-127:
`(late - early) * 100 / delta_total` with integer numerator arithmetic
and Python 3 true division. -/
def rateFormula (x1 x0 delta_total : Int) : ℚ :=
  (((x1 - x0) * 100 : Int) : ℚ) / ((delta_total : Int) : ℚ)

/-- The body of the per-id loop of `get_cpu_stats`
(source lines 120-131), for one `cpu_id`. -/
def rate_one (t0 t1 : Dict StatVal) (cpu_id : String) :
    Except PyErr (ℚ × ℚ × ℚ) :=
  ebind (requireInt t1 (cpu_id ++ "all")) fun total_t1 =>
  ebind (requireInt t0 (cpu_id ++ "all")) fun total_t0 =>
  let delta_total := total_t1 - total_t0
  if 0 < delta_total then
    ebind (requireInt t1 cpu_id) fun b1 =>
    ebind (requireInt t0 cpu_id) fun b0 =>
    ebind (requireInt t1 (cpu_id ++ "io_wait")) fun w1 =>
    ebind (requireInt t0 (cpu_id ++ "io_wait")) fun w0 =>
    ebind (requireInt t1 (cpu_id ++ "steal")) fun s1 =>
    ebind (requireInt t0 (cpu_id ++ "steal")) fun s0 =>
    .ok (rateFormula b1 b0 delta_total, rateFormula w1 w0 delta_total,
      rateFormula s1 s0 delta_total)
  else
    .ok (0, 0, 0)

/-- The `for cpu_id in cpu_id_list` loop of `get_cpu_stats`, filling the
`cpu_percent` / `io_wait_percent` / `steal_percent` dicts. -/
def rate_loop (t0 t1 : Dict StatVal) :
    List String → Dict ℚ × Dict ℚ × Dict ℚ →
    Except PyErr (Dict ℚ × Dict ℚ × Dict ℚ)
  | [], acc => .ok acc
  | cpu_id :: rest, (cp, iw, stl) =>
    ebind (rate_one t0 t1 cpu_id) fun r =>
    match r with
    | (pc, pw, ps) =>
      rate_loop t0 t1 rest
        (dictInsert cp cpu_id pc, dictInsert iw cpu_id pw,
          dictInsert stl cpu_id ps)

/-- Source lines 132-133 (for key `"ctxt"` resp. `"processes"`):
`(float(t1[key]) - float(t0[key])) / sample_period`. -/
def scalar_rate (t0s t1s : Dict StatVal) (key : String)
    (period : ℚ) : Except PyErr ℚ :=
  ebind (dictRequire t1s key) fun v1 =>
  ebind (pyFloat v1) fun c1 =>
  ebind (dictRequire t0s key) fun v0 =>
  ebind (pyFloat v0) fun c0 =>
  pyDiv (c1 - c0) period

/-- The derived rates of one run (the globals `cpu_percent`,
`io_wait_percent`, `steal_percent`, `cpu_id_list`, `ctxt_per_second`,
`processes_per_second` after `get_cpu_stats`). -/
structure RateResult where
  cpu_percent : Dict ℚ
  io_wait_percent : Dict ℚ
  steal_percent : Dict ℚ
  cpu_id_list : List String
  ctxt_per_second : ℚ
  processes_per_second : ℚ
deriving DecidableEq, Repr

/-- `get_cpu_stats` (source lines 115-133), as a function of the two
captured snapshots and the sampling period.  The iteration list is the
global `cpu_id_list`, which the second `get_procstat_now` call has reset
to the ids of the late snapshot. -/
def get_cpu_stats (cpu_stats_t0 cpu_stats_t1 : PSnap) (period : ℚ) :
    Except PyErr RateResult :=
  ebind (rate_loop cpu_stats_t0.stats cpu_stats_t1.stats
      cpu_stats_t1.cpu_id_list ([], [], [])) fun acc =>
  ebind (scalar_rate cpu_stats_t0.stats cpu_stats_t1.stats "ctxt" period)
    fun ctxt_per_second =>
  ebind (scalar_rate cpu_stats_t0.stats cpu_stats_t1.stats "processes" period)
    fun processes_per_second =>
  match acc with
  | (cp, iw, stl) =>
    .ok { cpu_percent := cp,
          io_wait_percent := iw,
          steal_percent := stl,
          cpu_id_list := cpu_stats_t1.cpu_id_list,
          ctxt_per_second := ctxt_per_second,
          processes_per_second := processes_per_second }

/-- Exact-rational stand-in for Python's decimal float rendering inside
f-strings (no claim depends on the rendered digits). -/
def numStr (q : ℚ) : String :=
  toString q.num ++ "/" ++ toString q.den

/-- The CRITICAL breach message of source line 151. -/
def crit_message (cpu_id : String) (p : ℚ) (threshold : Int) : String :=
  "CRITICAL: " ++ cpu_id ++ " CPU usage at " ++ numStr p ++
    "% exceeds critical threshold of " ++ toString threshold ++ "%"

/-- The WARNING breach message of source line 154. -/
def warn_message (cpu_id : String) (p : ℚ) (threshold : Int) : String :=
  "WARNING: " ++ cpu_id ++ " CPU usage at " ++ numStr p ++
    "% exceeds warning threshold of " ++ toString threshold ++ "%"

/-- The `for cpu_id in cpu_id_list` loop of `check_status`
(source lines 148-154).  Note that `result` is *assigned*, not maxed:
a later WARNING overwrites an earlier CRITICAL. -/
def check_loop (cpu_percent : Dict ℚ) (w c : Int) :
    List String → Nat → List String → Except PyErr (Nat × List String)
  | [], result, messages => .ok (result, messages)
  | cpu_id :: rest, result, messages =>
    ebind (dictRequire cpu_percent cpu_id) fun p =>
    if p ≥ (c : ℚ) then
      check_loop cpu_percent w c rest CRITICAL
        (messages ++ [crit_message cpu_id p c])
    else if p ≥ (w : ℚ) then
      check_loop cpu_percent w c rest WARNING
        (messages ++ [warn_message cpu_id p w])
    else
      check_loop cpu_percent w c rest result messages

/-- `check_status` (source lines 144-157).  It reads only the aggregate
thresholds `warn`/`crit` (passed here as `w`/`c`) and the `cpu_percent`
dict; `per_cpu_warn`, `per_cpu_crit`, the io-wait and steal thresholds
and the `io_wait_percent`/`steal_percent` dicts are never consulted. -/
def check_status (cpu_id_list : List String) (cpu_percent : Dict ℚ)
    (w c : Int) : Except PyErr (Nat × String) :=
  ebind (check_loop cpu_percent w c cpu_id_list OK []) fun rm =>
  let messages :=
    if rm.2 = [] then ["OK: CPU usage is within normal parameters"]
    else rm.2
  .ok (rm.1, String.intercalate " " messages)

/-- One `label=value;warn;crit;0;100` perfdata token
(source lines 139-141). -/
def perf_token (label : String) (v : ℚ) (tw tc : Int) : String :=
  label ++ "=" ++ numStr v ++ "%;" ++ toString tw ++ ";" ++
    toString tc ++ ";0;100"

/-- The `for cpu_id in cpu_id_list` loop of `performance_data`
(source lines 138-141): three tokens per discovered id, in discovery
order. -/
def perf_message_array (cp iw stl : Dict ℚ)
    (w c iww iwc stw stc : Int) :
    List String → Except PyErr (List String)
  | [] => .ok []
  | cpu_id :: rest =>
    ebind (dictRequire cp cpu_id) fun v1 =>
    ebind (dictRequire iw cpu_id) fun v2 =>
    ebind (dictRequire stl cpu_id) fun v3 =>
    ebind (perf_message_array cp iw stl w c iww iwc stw stc rest) fun tail =>
    .ok (perf_token cpu_id v1 w c ::
      perf_token (cpu_id ++ "_iowait") v2 iww iwc ::
      perf_token (cpu_id ++ "_steal") v3 stw stc :: tail)

/-- `performance_data` (source lines 135-142): the space-joined token
line. -/
def performance_data (cp iw stl : Dict ℚ) (w c iww iwc stw stc : Int)
    (cpu_id_list : List String) : Except PyErr String :=
  ebind (perf_message_array cp iw stl w c iww iwc stw stc cpu_id_list)
    fun arr => .ok (String.intercalate " " arr)

/-- All three rate dicts have an entry for `id`. -/
def covers (cp iw stl : Dict ℚ) (id : String) : Prop :=
  (dictLookup cp id).isSome ∧ (dictLookup iw id).isSome ∧
    (dictLookup stl id).isSome

/-!
Concrete runs used by the counterexample theorems: each is the
composition actually performed by `main` (two snapshot parses followed
by `get_cpu_stats`) on explicit statistics texts, with the default
sampling period of 1 second.
-/

/-- Early text: aggregate idle only, busy 0%, io-wait 0%. -/
def c3_t0 : String := "cpu 0 0 0 100 0 0 0 0 0 0\nctxt 0\nprocesses 0"

/-- Late text: the interval adds 92 io-wait ticks and 8 idle ticks, so
busy rises to 92% and io-wait to 92% — io-wait above its default warning
threshold of 90 while busy stays below the aggregate warning of 95. -/
def c3_t1 : String := "cpu 0 0 0 108 92 0 0 0 0 0\nctxt 0\nprocesses 0"

def c3_run : Except PyErr RateResult :=
  ebind (get_procstat_now c3_t0) fun t0 =>
  ebind (get_procstat_now c3_t1) fun t1 =>
  get_cpu_stats t0 t1 1

/-- Late text whose `ctxt` line carries 500 while the second field of
its CPU line is 0. -/
def c4_t1 : String := "cpu 0 0 0 200 0 0 0 0 0 0\nctxt 500\nprocesses 0"

def c4_run : Except PyErr RateResult :=
  ebind (get_procstat_now c3_t0) fun t0 =>
  ebind (get_procstat_now c4_t1) fun t1 =>
  get_cpu_stats t0 t1 1

/-- Late text in which core `cpu0` has appeared (hot-plugged) since the
early snapshot `c3_t0`, which has no `cpu0` line. -/
def c5_t1 : String :=
  "cpu 0 0 0 200 0 0 0 0 0 0\ncpu0 0 0 0 50 0 0 0 0 0 0\nctxt 0\nprocesses 0"

def c5_run : Except PyErr RateResult :=
  ebind (get_procstat_now c3_t0) fun t0 =>
  ebind (get_procstat_now c5_t1) fun t1 =>
  get_cpu_stats t0 t1 1

/-- Early text: busy counter (user) at 50, idle at 50, total 100. -/
def c6_t0 : String := "cpu 50 0 0 50 0 0 0 0 0 0\nctxt 0\nprocesses 0"

/-- Late text: user has *decreased* to 40 (counter reset) while idle
grew to 160, so `delta_total = 100 > 0` with a negative busy delta. -/
def c6_t1 : String := "cpu 40 0 0 160 0 0 0 0 0 0\nctxt 0\nprocesses 0"

def c6_run : Except PyErr RateResult :=
  ebind (get_procstat_now c6_t0) fun t0 =>
  ebind (get_procstat_now c6_t1) fun t1 =>
  get_cpu_stats t0 t1 1

/-- A statistics text whose second line has non-numeric text where an
integer tick is expected. -/
def c7_text : String :=
  "cpu 0 0 0 100 0 0 0 0 0 0\ncpu0 1 x\nctxt 0\nprocesses 0"

/-- Early snapshot used by the C9 witness. -/
def c9_S0 : PSnap :=
  { stats := [("processes", .strV "0"), ("ctxt", .strV "0"),
      ("cpusteal", .intV 0), ("cpuio_wait", .intV 0),
      ("cpuall", .intV 100), ("cpu", .intV 0)],
    cpu_id_list := ["cpu"] }

/-- Late snapshot used by the C9 witness. -/
def c9_S1 : PSnap :=
  { stats := [("processes", .strV "0"), ("ctxt", .strV "0"),
      ("cpusteal", .intV 0), ("cpuio_wait", .intV 0),
      ("cpuall", .intV 200), ("cpu", .intV 50)],
    cpu_id_list := ["cpu"] }

/-- The rates derived from `c9_S0`/`c9_S1` over one second. -/
def c9_R : RateResult :=
  { cpu_percent := [("cpu", 50)],
    io_wait_percent := [("cpu", 0)],
    steal_percent := [("cpu", 0)],
    cpu_id_list := ["cpu"],
    ctxt_per_second := 0,
    processes_per_second := 0 }

/-!
## Theorems

First the claim theorems settled by direct evaluation of the embedded
code on concrete inputs, then the general theorems with their helper
lemmas.
-/

/-- Claim C1: false on the code.  `check_status` assigns `result` instead
of maxing it, so with `cpu` at 99% (≥ crit 98, CRITICAL) followed by
`cpu0` at 96% (≥ warn 95 only), the returned severity is the *later*
WARNING, not the maximum CRITICAL — even though, as the claim also says,
both breach messages are accumulated (two messages). -/
theorem check_status_last_breach_wins :
    (check_status ["cpu", "cpu0"] [("cpu", 99), ("cpu0", 96)] warn crit).map
      Prod.fst = .ok WARNING ∧
    WARNING ≠ CRITICAL ∧
    (check_loop [("cpu", 99), ("cpu0", 96)] warn crit ["cpu", "cpu0"] OK
      []).map (fun p => p.2.length) = .ok 2 := by
  decide

/-- Claim C2: false on the code.  `check_status` compares *every* id,
including individual cores, against the aggregate thresholds
`warn = 95` / `crit = 98`; it never reads `per_cpu_warn`/`per_cpu_crit`.
With `cpu0` at 100% busy and the aggregate at 40%, the run is CRITICAL
(100 ≥ 98), not the no-breach outcome the disabled `per_cpu_crit = 100`
sentinel would give. -/
theorem check_status_cores_use_aggregate_thresholds :
    (check_status ["cpu", "cpu0"] [("cpu", 40), ("cpu0", 100)] warn
      crit).map Prod.fst = .ok CRITICAL ∧
    CRITICAL ≠ OK := by
  decide

/-- Claim C3: false on the code.  In the run `c3_run` the aggregate
io-wait percentage is 92, above the default per-core io-wait warning
threshold of 90 (and the steal pattern is likewise never consulted), yet
the evaluated severity is OK: `check_status` reads only `cpu_percent`
against `warn`/`crit` and ignores `io_wait_percent` and
`steal_percent` entirely. -/
theorem check_status_ignores_io_wait_and_steal :
    c3_run.map (fun r => dictLookup r.io_wait_percent "cpu") =
      .ok (some 92) ∧
    (io_warn : ℚ) ≤ 92 ∧
    (ebind c3_run fun r =>
      check_status r.cpu_id_list r.cpu_percent warn crit).map Prod.fst =
      .ok OK := by
  with_unfolding_all decide

/-- Claim C4: false on the code.  In `c4_run` the late text's `ctxt`
line carries 500 (early 0, period 1 s), so the claimed rate is
`(500 - 0) / 1 = 500 ≠ 0`; but the code stores `parts[1]` — the second
field of the *most recently split CPU line* — as the scalar, so the
reported context-switch rate is 0. -/
theorem ctxt_rate_reads_stale_parts :
    c4_run.map RateResult.ctxt_per_second = .ok 0 ∧
    ((500 : ℚ) - 0) / 1 ≠ 0 := by
  with_unfolding_all decide

/-- Claim C5, counterexample: a core (`cpu0`) present only in the late
snapshot is not skipped — the lookup of its early totals raises
`KeyError` and the whole rate computation aborts. -/
theorem get_cpu_stats_new_core_keyerror :
    c5_run = .error .keyError := by
  decide

/-- Claim C6, counterexample: with `delta_total = 100 > 0` and the busy
counter decreased by 10, the code reports `cpu` busy at −10%, a negative
percentage (no clamping). -/
theorem cpu_percent_negative :
    c6_run.map (fun r => dictLookup r.cpu_percent "cpu") =
      .ok (some (-10)) ∧
    (-10 : ℚ) < 0 := by
  with_unfolding_all decide

/-- Claim C7, counterexample: the non-numeric field `x` on the `cpu0`
line raises `ValueError` which aborts the *entire* snapshot parse — no
per-line containment, no result for the rest of the run. -/
theorem parse_aborts_on_nonnumeric :
    get_procstat_now c7_text = .error .valueError := by
  decide

theorem requireInt_error_of_none (d : Dict StatVal) (k : String)
    (h : dictLookup d k = none) : requireInt d k = .error .keyError := by
  simp [requireInt, h]

theorem rate_one_error_of_missing_early (t0 t1 : Dict StatVal)
    (cpu_id : String) (h : dictLookup t0 (cpu_id ++ "all") = none) :
    ∃ e, rate_one t0 t1 cpu_id = .error e := by
  unfold rate_one
  cases h1 : requireInt t1 (cpu_id ++ "all") with
  | error e => exact ⟨e, by simp [h1]⟩
  | ok tot1 =>
    exact ⟨.keyError, by simp [h1, requireInt_error_of_none t0 _ h]⟩

theorem rate_loop_error_of_missing_early (t0 t1 : Dict StatVal)
    (cpu_id : String) (h : dictLookup t0 (cpu_id ++ "all") = none) :
    ∀ (ids : List String) (cp iw stl : Dict ℚ), cpu_id ∈ ids →
      ∃ e, rate_loop t0 t1 ids (cp, iw, stl) = .error e := by
  intro ids
  induction ids with
  | nil => intro cp iw stl hmem; cases hmem
  | cons x rest ih =>
    intro cp iw stl hmem
    cases hr : rate_one t0 t1 x with
    | error e => exact ⟨e, by simp [rate_loop, hr]⟩
    | ok r =>
      obtain ⟨pc, pw, ps⟩ := r
      rcases List.mem_cons.mp hmem with hx | hmem2
      · obtain ⟨e, he⟩ := rate_one_error_of_missing_early t0 t1 cpu_id h
        rw [← hx] at hr
        rw [hr] at he
        simp at he
      · obtain ⟨e, he⟩ := ih (dictInsert cp x pc) (dictInsert iw x pw)
          (dictInsert stl x ps) hmem2
        exact ⟨e, by simp [rate_loop, hr, he]⟩

/-- Claim C5, amended: a CpuId present in the late snapshot but absent
from the early snapshot is *not* skipped — the lookup of its early
total-ticks entry fails and `get_cpu_stats` aborts with an uncaught
exception (`KeyError`), whatever the other ids hold. -/
theorem get_cpu_stats_missing_early_id_errors (t0 t1 : PSnap) (period : ℚ)
    (cpu_id : String) (hmem : cpu_id ∈ t1.cpu_id_list)
    (hmiss : dictLookup t0.stats (cpu_id ++ "all") = none) :
    ∃ e, get_cpu_stats t0 t1 period = .error e := by
  obtain ⟨e, he⟩ := rate_loop_error_of_missing_early t0.stats t1.stats cpu_id
    hmiss t1.cpu_id_list [] [] [] hmem
  exact ⟨e, by simp [get_cpu_stats, he]⟩

/-- Witness for the amended C5 theorem at a concrete input: an empty
early snapshot and a late snapshot that discovered `cpu0`. -/
theorem get_cpu_stats_missing_early_id_errors_witness :
    "cpu0" ∈ (⟨[], ["cpu0"]⟩ : PSnap).cpu_id_list ∧
    ∃ e, get_cpu_stats ⟨[], []⟩ ⟨[], ["cpu0"]⟩ 1 = .error e :=
  ⟨by decide,
    get_cpu_stats_missing_early_id_errors ⟨[], []⟩ ⟨[], ["cpu0"]⟩ 1 "cpu0"
      (by decide) (by decide)⟩

/-- Claim C6, amended: when `deltaTotal ≤ 0` all three reported
percentages for the id are exactly 0; but when `deltaTotal > 0` the
percentages are the raw `(late − early) * 100 / deltaTotal` values with
*no clamping*, so a decreased counter yields a negative percentage. -/
theorem rate_one_unclamped (t0 t1 : Dict StatVal) (cpu_id : String)
    (tot1 tot0 b1 b0 w1 w0 s1 s0 : Int)
    (h1 : dictLookup t1 (cpu_id ++ "all") = some (.intV tot1))
    (h2 : dictLookup t0 (cpu_id ++ "all") = some (.intV tot0))
    (h3 : dictLookup t1 cpu_id = some (.intV b1))
    (h4 : dictLookup t0 cpu_id = some (.intV b0))
    (h5 : dictLookup t1 (cpu_id ++ "io_wait") = some (.intV w1))
    (h6 : dictLookup t0 (cpu_id ++ "io_wait") = some (.intV w0))
    (h7 : dictLookup t1 (cpu_id ++ "steal") = some (.intV s1))
    (h8 : dictLookup t0 (cpu_id ++ "steal") = some (.intV s0)) :
    (tot1 - tot0 ≤ 0 → rate_one t0 t1 cpu_id = .ok (0, 0, 0)) ∧
    (0 < tot1 - tot0 → rate_one t0 t1 cpu_id =
      .ok (rateFormula b1 b0 (tot1 - tot0), rateFormula w1 w0 (tot1 - tot0),
        rateFormula s1 s0 (tot1 - tot0))) := by
  constructor
  · intro h
    unfold rate_one
    simp only [requireInt, h1, h2, ebind_ok]
    rw [if_neg (by omega)]
  · intro h
    unfold rate_one
    simp only [requireInt, h1, h2, h3, h4, h5, h6, h7, h8, ebind_ok]
    rw [if_pos h]

/-- Witness for the amended C6 theorem: delta 100 with the busy counter
decreased from 50 to 40; the formula value is the negative −10. -/
theorem rate_one_unclamped_witness :
    rate_one
      [("cpuall", .intV 100), ("cpu", .intV 50),
        ("cpuio_wait", .intV 0), ("cpusteal", .intV 0)]
      [("cpuall", .intV 200), ("cpu", .intV 40),
        ("cpuio_wait", .intV 0), ("cpusteal", .intV 0)] "cpu" =
      .ok (rateFormula 40 50 100, rateFormula 0 0 100,
        rateFormula 0 0 100) ∧
    rateFormula 40 50 100 = -10 :=
  ⟨(rate_one_unclamped _ _ "cpu" 200 100 40 50 0 0 0 0
      (by decide) (by decide) (by decide) (by decide) (by decide)
      (by decide) (by decide) (by decide)).2 (by decide),
    by with_unfolding_all decide⟩

/-- Claim C7, amended: a CPU tick line with at most ten integer fields
is accepted, zero-padded on the right to exactly ten fields; but a line
with non-numeric text where integers are expected raises a `ValueError`
that aborts the entire snapshot parse — there is no `MalformedData`
per-line containment in the code. -/
theorem tick_line_padding_and_abort (st : ParseState) (cpu_id : String)
    (arr : List Int) (hlen : arr.length ≤ 10) :
    record_cpu st cpu_id arr = record_cpu st cpu_id (pad10 arr) ∧
    (pad10 arr).length = 10 ∧
    parseLine st "cpu0 1 x" = .error .valueError := by
  have h10 : (pad10 arr).length = 10 := by
    simp [pad10]
    omega
  have hidem : pad10 (pad10 arr) = pad10 arr := by
    rw [pad10, h10]
    simp
  refine ⟨?_, h10, ?_⟩
  · unfold record_cpu
    rw [hidem]
  · rfl

/-- Witness for the amended C7 theorem at the one-field line `cpu 5`
and the malformed line `cpu0 1 x`. -/
theorem tick_line_padding_and_abort_witness :
    record_cpu ⟨none, [], []⟩ "cpu" [5] =
      record_cpu ⟨none, [], []⟩ "cpu" (pad10 [5]) ∧
    (pad10 [5]).length = 10 ∧
    parseLine ⟨none, [], []⟩ "cpu0 1 x" = .error .valueError :=
  tick_line_padding_and_abort ⟨none, [], []⟩ "cpu" [5] (by decide)

/-- Claim C8: for a CpuId whose ten tick counters are all monotone
(late ≥ early componentwise) and whose total delta is positive, the
busy, io-wait and steal percentages computed by the code's formula all
lie in [0, 100]. -/
theorem rates_bounded_of_monotone_ticks
    (u0 n0 m0 i0 w0 hw0 x0 t0 g0 q0
     u1 n1 m1 i1 w1 hw1 x1 t1 g1 q1 : Int)
    (hu : u0 ≤ u1) (hn : n0 ≤ n1) (hm : m0 ≤ m1) (hi : i0 ≤ i1)
    (hw : w0 ≤ w1) (hh : hw0 ≤ hw1) (hx : x0 ≤ x1) (ht : t0 ≤ t1)
    (hg : g0 ≤ g1) (hq : q0 ≤ q1)
    (hpos : 0 < (derive_ticks u1 n1 m1 i1 w1 hw1 x1 t1 g1 q1).cpu_total_ticks -
        (derive_ticks u0 n0 m0 i0 w0 hw0 x0 t0 g0 q0).cpu_total_ticks) :
    (0 ≤ rateFormula (derive_ticks u1 n1 m1 i1 w1 hw1 x1 t1 g1 q1).cpu_usage
        (derive_ticks u0 n0 m0 i0 w0 hw0 x0 t0 g0 q0).cpu_usage
        ((derive_ticks u1 n1 m1 i1 w1 hw1 x1 t1 g1 q1).cpu_total_ticks -
          (derive_ticks u0 n0 m0 i0 w0 hw0 x0 t0 g0 q0).cpu_total_ticks) ∧
      rateFormula (derive_ticks u1 n1 m1 i1 w1 hw1 x1 t1 g1 q1).cpu_usage
        (derive_ticks u0 n0 m0 i0 w0 hw0 x0 t0 g0 q0).cpu_usage
        ((derive_ticks u1 n1 m1 i1 w1 hw1 x1 t1 g1 q1).cpu_total_ticks -
          (derive_ticks u0 n0 m0 i0 w0 hw0 x0 t0 g0 q0).cpu_total_ticks) ≤ 100) ∧
    (0 ≤ rateFormula (derive_ticks u1 n1 m1 i1 w1 hw1 x1 t1 g1 q1).io_wait
        (derive_ticks u0 n0 m0 i0 w0 hw0 x0 t0 g0 q0).io_wait
        ((derive_ticks u1 n1 m1 i1 w1 hw1 x1 t1 g1 q1).cpu_total_ticks -
          (derive_ticks u0 n0 m0 i0 w0 hw0 x0 t0 g0 q0).cpu_total_ticks) ∧
      rateFormula (derive_ticks u1 n1 m1 i1 w1 hw1 x1 t1 g1 q1).io_wait
        (derive_ticks u0 n0 m0 i0 w0 hw0 x0 t0 g0 q0).io_wait
        ((derive_ticks u1 n1 m1 i1 w1 hw1 x1 t1 g1 q1).cpu_total_ticks -
          (derive_ticks u0 n0 m0 i0 w0 hw0 x0 t0 g0 q0).cpu_total_ticks) ≤ 100) ∧
    (0 ≤ rateFormula (derive_ticks u1 n1 m1 i1 w1 hw1 x1 t1 g1 q1).steal
        (derive_ticks u0 n0 m0 i0 w0 hw0 x0 t0 g0 q0).steal
        ((derive_ticks u1 n1 m1 i1 w1 hw1 x1 t1 g1 q1).cpu_total_ticks -
          (derive_ticks u0 n0 m0 i0 w0 hw0 x0 t0 g0 q0).cpu_total_ticks) ∧
      rateFormula (derive_ticks u1 n1 m1 i1 w1 hw1 x1 t1 g1 q1).steal
        (derive_ticks u0 n0 m0 i0 w0 hw0 x0 t0 g0 q0).steal
        ((derive_ticks u1 n1 m1 i1 w1 hw1 x1 t1 g1 q1).cpu_total_ticks -
          (derive_ticks u0 n0 m0 i0 w0 hw0 x0 t0 g0 q0).cpu_total_ticks) ≤ 100) := by
  simp only [derive_ticks] at *
  set d : Int := u1 + n1 + m1 + i1 + w1 + hw1 + x1 + t1 + g1 + q1 -
    (u0 + n0 + m0 + i0 + w0 + hw0 + x0 + t0 + g0 + q0) with hd
  have hdq : (0 : ℚ) < (d : ℚ) := by exact_mod_cast hpos
  have bound : ∀ a1 a0 : Int, 0 ≤ a1 - a0 → a1 - a0 ≤ d →
      0 ≤ rateFormula a1 a0 d ∧ rateFormula a1 a0 d ≤ 100 := by
    intro a1 a0 hge hle
    unfold rateFormula
    constructor
    · apply div_nonneg _ (le_of_lt hdq)
      have : (0 : Int) ≤ (a1 - a0) * 100 := by nlinarith
      exact_mod_cast this
    · rw [div_le_iff₀ hdq]
      have : (a1 - a0) * 100 ≤ 100 * d := by nlinarith
      exact_mod_cast this
  refine ⟨bound _ _ (by omega) (by omega), bound _ _ (by omega) (by omega),
    bound _ _ (by omega) (by omega)⟩

/-- Witness for C8: early ticks `user 0, idle 50`, late ticks
`user 50, idle 100` — delta 100, all three percentages in bounds. -/
theorem rates_bounded_of_monotone_ticks_witness :
    (0:Int) ≤ 50 ∧
    (0 ≤ rateFormula
        (derive_ticks 50 0 0 100 0 0 0 0 0 0).cpu_usage
        (derive_ticks 0 0 0 50 0 0 0 0 0 0).cpu_usage
        ((derive_ticks 50 0 0 100 0 0 0 0 0 0).cpu_total_ticks -
          (derive_ticks 0 0 0 50 0 0 0 0 0 0).cpu_total_ticks) ∧
      rateFormula
        (derive_ticks 50 0 0 100 0 0 0 0 0 0).cpu_usage
        (derive_ticks 0 0 0 50 0 0 0 0 0 0).cpu_usage
        ((derive_ticks 50 0 0 100 0 0 0 0 0 0).cpu_total_ticks -
          (derive_ticks 0 0 0 50 0 0 0 0 0 0).cpu_total_ticks) ≤ 100) ∧
    (0 ≤ rateFormula
        (derive_ticks 50 0 0 100 0 0 0 0 0 0).io_wait
        (derive_ticks 0 0 0 50 0 0 0 0 0 0).io_wait
        ((derive_ticks 50 0 0 100 0 0 0 0 0 0).cpu_total_ticks -
          (derive_ticks 0 0 0 50 0 0 0 0 0 0).cpu_total_ticks) ∧
      rateFormula
        (derive_ticks 50 0 0 100 0 0 0 0 0 0).io_wait
        (derive_ticks 0 0 0 50 0 0 0 0 0 0).io_wait
        ((derive_ticks 50 0 0 100 0 0 0 0 0 0).cpu_total_ticks -
          (derive_ticks 0 0 0 50 0 0 0 0 0 0).cpu_total_ticks) ≤ 100) ∧
    (0 ≤ rateFormula
        (derive_ticks 50 0 0 100 0 0 0 0 0 0).steal
        (derive_ticks 0 0 0 50 0 0 0 0 0 0).steal
        ((derive_ticks 50 0 0 100 0 0 0 0 0 0).cpu_total_ticks -
          (derive_ticks 0 0 0 50 0 0 0 0 0 0).cpu_total_ticks) ∧
      rateFormula
        (derive_ticks 50 0 0 100 0 0 0 0 0 0).steal
        (derive_ticks 0 0 0 50 0 0 0 0 0 0).steal
        ((derive_ticks 50 0 0 100 0 0 0 0 0 0).cpu_total_ticks -
          (derive_ticks 0 0 0 50 0 0 0 0 0 0).cpu_total_ticks) ≤ 100) :=
  ⟨by decide,
    rates_bounded_of_monotone_ticks 0 0 0 50 0 0 0 0 0 0 50 0 0 100 0 0 0 0 0 0
      (by decide) (by decide) (by decide) (by decide) (by decide) (by decide)
      (by decide) (by decide) (by decide) (by decide) (by decide)⟩

theorem dictLookup_insert_self {α : Type} (d : Dict α) (k : String) (v : α) :
    dictLookup (dictInsert d k v) k = some v := by
  simp [dictInsert, dictLookup]

theorem dictLookup_insert_isSome {α : Type} (d : Dict α) (k k' : String)
    (v : α) (h : (dictLookup d k').isSome) :
    (dictLookup (dictInsert d k v) k').isSome := by
  by_cases hk : k = k'
  · subst hk
    simp [dictLookup_insert_self]
  · simpa [dictInsert, dictLookup, hk] using h

theorem covers_insert (cp iw stl : Dict ℚ) (k id : String) (a b c : ℚ)
    (h : covers cp iw stl id) :
    covers (dictInsert cp k a) (dictInsert iw k b) (dictInsert stl k c) id :=
  ⟨dictLookup_insert_isSome _ _ _ _ h.1,
    dictLookup_insert_isSome _ _ _ _ h.2.1,
    dictLookup_insert_isSome _ _ _ _ h.2.2⟩

theorem rate_loop_covers_mono (t0 t1 : Dict StatVal) :
    ∀ (ids : List String) (cp iw stl cp' iw' stl' : Dict ℚ),
      rate_loop t0 t1 ids (cp, iw, stl) = .ok (cp', iw', stl') →
      ∀ id, covers cp iw stl id → covers cp' iw' stl' id := by
  intro ids
  induction ids with
  | nil =>
    intro cp iw stl cp' iw' stl' h id hcov
    simp only [rate_loop] at h
    cases h
    exact hcov
  | cons x rest ih =>
    intro cp iw stl cp' iw' stl' h id hcov
    cases hr : rate_one t0 t1 x with
    | error e => simp [rate_loop, hr] at h
    | ok r =>
      obtain ⟨pc, pw, ps⟩ := r
      simp only [rate_loop, hr, ebind_ok] at h
      exact ih _ _ _ _ _ _ h id (covers_insert _ _ _ _ _ _ _ _ hcov)

theorem rate_loop_covers (t0 t1 : Dict StatVal) :
    ∀ (ids : List String) (cp iw stl cp' iw' stl' : Dict ℚ),
      rate_loop t0 t1 ids (cp, iw, stl) = .ok (cp', iw', stl') →
      ∀ id ∈ ids, covers cp' iw' stl' id := by
  intro ids
  induction ids with
  | nil =>
    intro cp iw stl cp' iw' stl' h id hmem
    cases hmem
  | cons x rest ih =>
    intro cp iw stl cp' iw' stl' h id hmem
    cases hr : rate_one t0 t1 x with
    | error e => simp [rate_loop, hr] at h
    | ok r =>
      obtain ⟨pc, pw, ps⟩ := r
      simp only [rate_loop, hr, ebind_ok] at h
      rcases List.mem_cons.mp hmem with hx | hmem2
      · subst hx
        refine rate_loop_covers_mono t0 t1 rest _ _ _ _ _ _ h id ?_
        exact ⟨by simp [dictLookup_insert_self],
          by simp [dictLookup_insert_self],
          by simp [dictLookup_insert_self]⟩
      · exact ih _ _ _ _ _ _ h id hmem2

theorem perf_message_array_structure (cp iw stl : Dict ℚ)
    (w c iww iwc stw stc : Int) :
    ∀ ids : List String, (∀ id ∈ ids, covers cp iw stl id) →
      ∃ arr, perf_message_array cp iw stl w c iww iwc stw stc ids = .ok arr ∧
        arr.length = 3 * ids.length ∧
        ∀ i (hi : i < ids.length), ∃ v1 v2 v3,
          arr[3 * i]? = some (perf_token (ids.get ⟨i, hi⟩) v1 w c) ∧
          arr[3 * i + 1]? =
            some (perf_token (ids.get ⟨i, hi⟩ ++ "_iowait") v2 iww iwc) ∧
          arr[3 * i + 2]? =
            some (perf_token (ids.get ⟨i, hi⟩ ++ "_steal") v3 stw stc) := by
  intro ids
  induction ids with
  | nil =>
    intro _
    exact ⟨[], rfl, rfl, fun i hi => absurd hi (Nat.not_lt_zero i)⟩
  | cons x rest ih =>
    intro hcov
    obtain ⟨hc1, hc2, hc3⟩ := hcov x (List.mem_cons_self x rest)
    obtain ⟨v1, hv1⟩ := Option.isSome_iff_exists.mp hc1
    obtain ⟨v2, hv2⟩ := Option.isSome_iff_exists.mp hc2
    obtain ⟨v3, hv3⟩ := Option.isSome_iff_exists.mp hc3
    obtain ⟨tail, htail, hlen, hidx⟩ :=
      ih (fun id hmem => hcov id (List.mem_cons_of_mem x hmem))
    refine ⟨perf_token x v1 w c ::
      perf_token (x ++ "_iowait") v2 iww iwc ::
      perf_token (x ++ "_steal") v3 stw stc :: tail, ?_, ?_, ?_⟩
    · simp [perf_message_array, dictRequire, hv1, hv2, hv3, htail]
    · simp [hlen]
      ring
    · intro i hi
      cases i with
      | zero => exact ⟨v1, v2, v3, by simp, by simp, by simp⟩
      | succ j =>
        have hj : j < rest.length := by
          simpa using Nat.lt_of_succ_lt_succ hi
        obtain ⟨w1, w2, w3, hw1, hw2, hw3⟩ := hidx j hj
        refine ⟨w1, w2, w3, ?_, ?_, ?_⟩
        · have h3 : 3 * (j + 1) = (3 * j) + 1 + 1 + 1 := by ring
          rw [h3]
          simpa using hw1
        · have h3 : 3 * (j + 1) + 1 = ((3 * j) + 1) + 1 + 1 + 1 := by ring
          rw [h3]
          simpa using hw2
        · have h3 : 3 * (j + 1) + 2 = ((3 * j) + 2) + 1 + 1 + 1 := by ring
          rw [h3]
          simpa using hw3

/-- Claim C9: whenever `get_cpu_stats` succeeds (the situation in which
`main` calls the formatter), `performance_data` succeeds — it performs
no threshold comparisons, holding for *all* threshold values — and its
token array has exactly `3 × |discovered CpuIds|` entries: for the
`i`-th discovered id, tokens `3i`, `3i+1`, `3i+2` are its busy, io-wait
and steal `label=value;warn;crit;min;max` tokens, in discovery order. -/
theorem performance_data_token_structure (t0 t1 : PSnap) (period : ℚ)
    (r : RateResult) (w c iww iwc stw stc : Int)
    (h : get_cpu_stats t0 t1 period = .ok r) :
    ∃ arr,
      perf_message_array r.cpu_percent r.io_wait_percent r.steal_percent
        w c iww iwc stw stc r.cpu_id_list = .ok arr ∧
      performance_data r.cpu_percent r.io_wait_percent r.steal_percent
        w c iww iwc stw stc r.cpu_id_list =
        .ok (String.intercalate " " arr) ∧
      arr.length = 3 * r.cpu_id_list.length ∧
      ∀ i (hi : i < r.cpu_id_list.length), ∃ v1 v2 v3,
        arr[3 * i]? =
          some (perf_token (r.cpu_id_list.get ⟨i, hi⟩) v1 w c) ∧
        arr[3 * i + 1]? =
          some (perf_token (r.cpu_id_list.get ⟨i, hi⟩ ++ "_iowait") v2
            iww iwc) ∧
        arr[3 * i + 2]? =
          some (perf_token (r.cpu_id_list.get ⟨i, hi⟩ ++ "_steal") v3
            stw stc) := by
  have hcov : ∀ id ∈ r.cpu_id_list,
      covers r.cpu_percent r.io_wait_percent r.steal_percent id := by
    unfold get_cpu_stats at h
    cases hrl : rate_loop t0.stats t1.stats t1.cpu_id_list ([], [], []) with
    | error e => rw [hrl] at h; simp at h
    | ok acc =>
      obtain ⟨cp, iw, stl⟩ := acc
      rw [hrl] at h
      simp only [ebind_ok] at h
      cases hs1 : scalar_rate t0.stats t1.stats "ctxt" period with
      | error e => rw [hs1] at h; simp at h
      | ok q1 =>
        rw [hs1] at h
        simp only [ebind_ok] at h
        cases hs2 : scalar_rate t0.stats t1.stats "processes" period with
        | error e => rw [hs2] at h; simp at h
        | ok q2 =>
          rw [hs2] at h
          simp only [ebind_ok, Except.ok.injEq] at h
          subst h
          intro id hmem
          exact rate_loop_covers t0.stats t1.stats t1.cpu_id_list
            [] [] [] cp iw stl hrl id hmem
  obtain ⟨arr, harr, hlen, hidx⟩ :=
    perf_message_array_structure r.cpu_percent r.io_wait_percent
      r.steal_percent w c iww iwc stw stc r.cpu_id_list hcov
  exact ⟨arr, harr, by simp [performance_data, harr], hlen, hidx⟩

/-- Witness for C9 at the concrete snapshots `c9_S0`/`c9_S1` (whose
rates are `c9_R`) with the default thresholds. -/
theorem performance_data_token_structure_witness :
    get_cpu_stats c9_S0 c9_S1 1 = .ok c9_R ∧
    ∃ arr,
      perf_message_array c9_R.cpu_percent c9_R.io_wait_percent
        c9_R.steal_percent warn crit io_warn io_crit steal_warn
        steal_crit c9_R.cpu_id_list = .ok arr ∧
      performance_data c9_R.cpu_percent c9_R.io_wait_percent
        c9_R.steal_percent warn crit io_warn io_crit steal_warn
        steal_crit c9_R.cpu_id_list =
        .ok (String.intercalate " " arr) ∧
      arr.length = 3 * c9_R.cpu_id_list.length ∧
      ∀ i (hi : i < c9_R.cpu_id_list.length), ∃ v1 v2 v3,
        arr[3 * i]? =
          some (perf_token (c9_R.cpu_id_list.get ⟨i, hi⟩) v1 warn crit) ∧
        arr[3 * i + 1]? =
          some (perf_token (c9_R.cpu_id_list.get ⟨i, hi⟩ ++ "_iowait") v2
            io_warn io_crit) ∧
        arr[3 * i + 2]? =
          some (perf_token (c9_R.cpu_id_list.get ⟨i, hi⟩ ++ "_steal") v3
            steal_warn steal_crit) :=
  ⟨by with_unfolding_all decide,
    performance_data_token_structure c9_S0 c9_S1 1 c9_R warn crit io_warn
      io_crit steal_warn steal_crit (by with_unfolding_all decide)⟩

theorem parse_fold_scalar_first (st : ParseState) (hst : st.parts = none) :
    ∀ (lines : List String) (i : Nat) (hi : i < lines.length),
      (pyStartsWith (lines.get ⟨i, hi⟩) "ctxt" = true ∨
        pyStartsWith (lines.get ⟨i, hi⟩) "processes" = true) →
      (∀ j (hj : j ≤ i),
        pyStartsWith (lines.get ⟨j, Nat.lt_of_le_of_lt hj hi⟩) "cpu" =
          false) →
      parse_fold st lines = .error .unboundLocal := by
  intro lines
  induction lines generalizing st with
  | nil => intro i hi; cases hi
  | cons l rest ih =>
    intro i hi hline hpre
    have hcpul : pyStartsWith l "cpu" = false := hpre 0 (Nat.zero_le i)
    cases hc : pyStartsWith l "ctxt" with
    | true =>
      simp [parse_fold, parseLine, hcpul, hc, hst]
    | false =>
      cases i with
      | zero =>
        rcases hline with hline | hline
        · rw [List.get] at hline
          simp only [hline] at hc
          cases hc
        · rw [List.get] at hline
          simp [parse_fold, parseLine, hcpul, hc, hline, hst]
      | succ k =>
        cases hp : pyStartsWith l "processes" with
        | true => simp [parse_fold, parseLine, hcpul, hc, hp, hst]
        | false =>
          have hstep : parseLine st l = .ok st := by
            simp [parseLine, hcpul, hc, hp]
          have hk : k < rest.length := Nat.lt_of_succ_lt_succ hi
          have := ih st hst k hk
            (by simpa using hline)
            (fun j hj => by
              have := hpre (j + 1) (Nat.succ_le_succ hj)
              simpa using this)
          simpa [parse_fold, hstep] using this

/-- Claim C10: for any statistics text in which some line starts with
the `ctxt` or `processes` token while no line up to and including it
starts with `cpu` (i.e. the first non-ignored line is a scalar line),
`get_procstat_now` raises an uncaught `UnboundLocalError`: the scalar
branch reads `parts[1]` from the split of a previous CPU line, and no
CPU line has been split yet. -/
theorem get_procstat_now_scalar_first_errors (text : String) (i : Nat)
    (hi : i < (pyLines text).length)
    (hline : pyStartsWith ((pyLines text).get ⟨i, hi⟩) "ctxt" = true ∨
      pyStartsWith ((pyLines text).get ⟨i, hi⟩) "processes" = true)
    (hpre : ∀ j (hj : j ≤ i),
      pyStartsWith ((pyLines text).get ⟨j, Nat.lt_of_le_of_lt hj hi⟩)
        "cpu" = false) :
    get_procstat_now text = .error .unboundLocal := by
  unfold get_procstat_now
  rw [parse_fold_scalar_first _ rfl (pyLines text) i hi hline hpre]

/-- Witness for C10: a text whose very first line is the `ctxt` line. -/
theorem get_procstat_now_scalar_first_errors_witness :
    get_procstat_now "ctxt 5\nprocesses 3" = .error .unboundLocal :=
  get_procstat_now_scalar_first_errors "ctxt 5\nprocesses 3" 0
    (by decide) (Or.inl (by decide))
    (fun j hj => by
      have hj0 : j = 0 := Nat.le_zero.mp hj
      subst hj0
      rfl)

end CheckCpu
